import Mathlib

/-!
Verification of the behavior-tree example `t09_additional_node_args.cpp`
(BehaviorTree.CPP) against its natural-language specification.

The example source defines two leaf action types, `Action_A` (extra
constructor arguments injected by a captured builder) and `Action_B`
(post-construction `init`), registers them in a factory, builds a
two-child Sequence tree and ticks it once.

Doubles occurring in the source (`3.14`, `9.99`) are only stored and
printed, never computed with, so they are embedded as exact rationals.
An output line of `tick()` is embedded structurally: the literal string
prefix token followed by the three printed field values; indeterminate
(never-initialized) numeric fields of `Action_B` are embedded as `none`.
-/

namespace BT

/-- `BT::NodeStatus`: the closed status enumeration. -/
inductive NodeStatus
  | IDLE
  | RUNNING
  | SUCCESS
  | FAILURE
deriving DecidableEq, Repr

/-- A `NodeConfiguration`: the static port-name to value mapping handed to
every node at construction (empty in this example). -/
structure NodeConfiguration where
  portMap : List (String × String) := []
deriving DecidableEq, Repr

/-- One console line printed by a leaf `tick()`:
`std::cout << <tag literal> << v1 << " / " << v2 << " / " << v3`.
`none` in a numeric field stands for an indeterminate (uninitialized) value. -/
structure OutputLine where
  tag : String
  v1 : Option Int
  v2 : Option ℚ
  v3 : String
deriving DecidableEq, Repr

/-- `Action_A`: stores the three extra constructor arguments. -/
structure ActionA where
  name : String
  arg1 : Int
  arg2 : ℚ
  arg3 : String
deriving DecidableEq, Repr

/-- `Action_A`'s constructor: forwards name/config to the base and stores the
three extra arguments. -/
def ActionA.ctor (name : String) (_config : NodeConfiguration)
    (arg1 : Int) (arg2 : ℚ) (arg3 : String) : ActionA :=
  { name := name, arg1 := arg1, arg2 := arg2, arg3 := arg3 }

/-- `Action_A::tick()`: prints `"Action_B: " << _arg1 << " / " << _arg2
<< " / " << _arg3` (the literal in the source says `Action_B`, not
`Action_A`) and returns SUCCESS. The node state is not modified. -/
def ActionA.tick (a : ActionA) : NodeStatus × OutputLine :=
  (NodeStatus.SUCCESS, ⟨"Action_B: ", some a.arg1, some a.arg2, a.arg3⟩)

/-- `Action_A::providedPorts()`: the empty port set. -/
def ActionA.providedPorts : List String := []

/-- `Action_B`: fields start indeterminate (the `int` and `double` members
are not initialized by the constructor, `std::string` defaults to empty);
`init` fills them in. -/
structure ActionB where
  name : String
  arg1 : Option Int := none
  arg2 : Option ℚ := none
  arg3 : String := ""
deriving DecidableEq, Repr

/-- `Action_B`'s constructor: standard (name, config) construction only. -/
def ActionB.ctor (name : String) (_config : NodeConfiguration) : ActionB :=
  { name := name }

/-- `Action_B::init(arg1, arg2, arg3)`: overwrites the three stored fields. -/
def ActionB.init (b : ActionB) (arg1 : Int) (arg2 : ℚ) (arg3 : String) :
    ActionB :=
  { b with arg1 := some arg1, arg2 := some arg2, arg3 := arg3 }

/-- `Action_B::tick()`: prints `"Action_B: " << _arg1 << " / " << _arg2
<< " / " << _arg3` and returns SUCCESS, with no guard against being ticked
before `init` ran. -/
def ActionB.tick (b : ActionB) : NodeStatus × OutputLine :=
  (NodeStatus.SUCCESS, ⟨"Action_B: ", b.arg1, b.arg2, b.arg3⟩)

/-- `Action_B::providedPorts()`: the empty port set. -/
def ActionB.providedPorts : List String := []

/-- `builder_A` from `main`: a closure capturing the fixed extra arguments
`42`, `3.14`, `"hello world"` and forwarding them to `Action_A`'s
constructor. -/
def builder_A (name : String) (config : NodeConfiguration) : ActionA :=
  ActionA.ctor name config 42 3.14 "hello world"

/-- The sequence of results observed by ticking an `Action_A` instance `n`
times in a row (the instance state is unchanged by `tick`). -/
def ActionA.run (a : ActionA) : Nat → List (NodeStatus × OutputLine)
  | 0 => []
  | n + 1 => a.tick :: a.run n

/-! ### Sequence control-flow policy (abstract)

The Sequence implementation itself is library code not present in this
repository snapshot; it is modelled from the spec here. -/

/-- Modelled from the spec: the Sequence composite's tick policy (the
`SequenceNode` implementation is not in this snapshot). The first argument
lists the status each remaining child would report if ticked on this
round, the second is the absolute index of the first of them. Walking the
children: RUNNING stops the walk, returns RUNNING and remembers the
current index; FAILURE returns FAILURE and resets the resume index to the
first child; SUCCESS advances; past the last child, SUCCESS with reset
index. Output: (composite status, new resume index, indices of the
children actually ticked, in order). A child reporting IDLE is a contract
violation the spec leaves unspecified, embedded as `none`. -/
def seqTickAux : List NodeStatus → Nat → Option (NodeStatus × Nat × List Nat)
  | [], _ => some (NodeStatus.SUCCESS, 0, [])
  | s :: rest, i =>
    match s with
    | NodeStatus.RUNNING => some (NodeStatus.RUNNING, i, [i])
    | NodeStatus.FAILURE => some (NodeStatus.FAILURE, 0, [i])
    | NodeStatus.SUCCESS =>
      match seqTickAux rest (i + 1) with
      | none => none
      | some (st, ni, tk) => some (st, ni, i :: tk)
    | NodeStatus.IDLE => none

/-- Modelled from the spec: one Sequence tick resuming at child index `i`:
the walk of `seqTickAux` over the children from position `i` on. -/
def seqTickFrom (cs : List NodeStatus) (i : Nat) :
    Option (NodeStatus × Nat × List Nat) :=
  seqTickAux (cs.drop i) i

/-! ### Tree machinery for the concrete example

The factory registry, tree container and tree construction are library
code not present in this snapshot; they are modelled from the spec.
The example tree is one Sequence of leaf children, so the executable tree
model covers exactly that shape. -/

/-- Resume state of a Sequence composite instance: its children, given as
indices into the tree's flat node collection, and the current child. -/
structure SequenceState where
  childIdx : List Nat
  current : Nat := 0
deriving DecidableEq, Repr

/-- A constructed tree node instance: one of the two leaf types of the
example, or the Sequence composite. -/
inductive TreeNodeInst
  | actA : ActionA → TreeNodeInst
  | actB : ActionB → TreeNodeInst
  | seqNode : SequenceState → TreeNodeInst
deriving DecidableEq, Repr

/-- Ticking a leaf instance: dispatches to the concrete `tick()`;
a composite is not a leaf (`none`). -/
def tickLeaf : TreeNodeInst → Option (NodeStatus × OutputLine × TreeNodeInst)
  | .actA a => some (a.tick.1, a.tick.2, .actA a)
  | .actB b => some (b.tick.1, b.tick.2, .actB b)
  | .seqNode _ => none

/-- Modelled from the spec: `Tree` — the root node plus the flat ordered
collection of every constructed node (construction order; the `Tree` class
is not in this snapshot). -/
structure Tree where
  nodes : List TreeNodeInst
  rootIdx : Nat := 0
deriving DecidableEq, Repr

/-- Modelled from the spec: one walk of the Sequence over its leaf children
starting at child position `i`, per the §4.2 policy, threading the flat
node collection and collecting the printed lines in order. -/
def seqExecAux :
    List TreeNodeInst → List Nat → Nat →
      Option (NodeStatus × List OutputLine × List TreeNodeInst × Nat)
  | nodes, [], _ => some (NodeStatus.SUCCESS, [], nodes, 0)
  | nodes, ci :: rest, i =>
    match nodes[ci]? with
    | none => none
    | some n =>
      match tickLeaf n with
      | none => none
      | some (st, out, n2) =>
        let nodes2 := nodes.set ci n2
        match st with
        | NodeStatus.RUNNING => some (NodeStatus.RUNNING, [out], nodes2, i)
        | NodeStatus.FAILURE => some (NodeStatus.FAILURE, [out], nodes2, 0)
        | NodeStatus.SUCCESS =>
          match seqExecAux nodes2 rest (i + 1) with
          | none => none
          | some (st2, outs, ns, ni) => some (st2, out :: outs, ns, ni)
        | NodeStatus.IDLE => none

/-- Modelled from the spec: one Sequence tick over the tree's leaf children
resuming at child position `i`. -/
def seqExecFrom (nodes : List TreeNodeInst) (childIdx : List Nat) (i : Nat) :
    Option (NodeStatus × List OutputLine × List TreeNodeInst × Nat) :=
  seqExecAux nodes (childIdx.drop i) i

/-- Modelled from the spec: `Tree::root_node->executeTick()` — ticks the
root (the Sequence in this example) once and returns its status, the
ordered log of printed lines and the updated tree. -/
def Tree.executeTick (t : Tree) :
    Option (NodeStatus × List OutputLine × Tree) :=
  match t.nodes[t.rootIdx]? with
  | some (.seqNode s) =>
    match seqExecFrom t.nodes s.childIdx s.current with
    | none => none
    | some (st, outs, ns, ni) =>
      some (st, outs,
        { nodes := ns.set t.rootIdx (.seqNode { s with current := ni }),
          rootIdx := t.rootIdx })
  | _ => none

/-- A registered builder: a function constructing an owned node instance
from (name, configuration). -/
abbrev NodeBuilder : Type := String → NodeConfiguration → TreeNodeInst

/-- `TreeNodeManifest`: the registration identifier together with the
type's declared port set. -/
structure TreeNodeManifest where
  registrationId : String
  ports : List String
deriving DecidableEq, Repr

/-- Modelled from the spec: the factory registry state — an
insertion-ordered mapping from type-identifier to (manifest, builder)
(the `BehaviorTreeFactory` class is not in this snapshot). -/
abbrev Factory : Type := List (String × TreeNodeManifest × NodeBuilder)

/-- Error kinds of the factory (§7). -/
inductive FactoryError
  | DuplicateRegistration
  | UnknownIdentifier
deriving DecidableEq, Repr

/-- Identifier lookup in the registry: first entry with that identifier. -/
def Factory.lookup (f : Factory) (id : String) :
    Option (TreeNodeManifest × NodeBuilder) :=
  match f with
  | [] => none
  | (k, v) :: rest => if k = id then some v else Factory.lookup rest id

/-- Modelled from the spec: `BehaviorTreeFactory::registerBuilder` —
inserts an entry; fails with `DuplicateRegistration` if the identifier
already exists, leaving the registry untouched. -/
def Factory.registerBuilder (f : Factory) (manifest : TreeNodeManifest)
    (builder : NodeBuilder) : Except FactoryError Factory :=
  if (Factory.lookup f manifest.registrationId).isSome then
    Except.error FactoryError.DuplicateRegistration
  else
    Except.ok (f ++ [(manifest.registrationId, manifest, builder)])

/-- Modelled from the spec: a rejected registration leaves the registry
unchanged — the caller keeps using the registry exactly as it was before
the failed call. -/
def Factory.registerBuilderOrKeep (f : Factory) (manifest : TreeNodeManifest)
    (builder : NodeBuilder) : Factory :=
  match f.registerBuilder manifest builder with
  | Except.ok f2 => f2
  | Except.error _ => f

/-- `BehaviorTreeFactory::buildManifest<Action_A>("Action_A")`: derives the
manifest from the type's static `providedPorts()`. -/
def buildManifest_A (id : String) : TreeNodeManifest :=
  { registrationId := id, ports := ActionA.providedPorts }

/-- `BehaviorTreeFactory::buildManifest<Action_B>(id)`. -/
def buildManifest_B (id : String) : TreeNodeManifest :=
  { registrationId := id, ports := ActionB.providedPorts }

/-- `factory.registerNodeType<Action_B>("Action_B")`: auto-derived default
builder plus auto-derived manifest, registered via `registerBuilder`. -/
def registerNodeType_B (f : Factory) (id : String) :
    Except FactoryError Factory :=
  f.registerBuilder (buildManifest_B id)
    (fun name config => TreeNodeInst.actB (ActionB.ctor name config))

/-- The tree description carried by `xml_text`: a `MainTree` whose root is
one Sequence with children `Action_A` then `Action_B` (no instance names,
no ports; the instance name defaults to the registration identifier). -/
def xmlMainTree : List String := ["Action_A", "Action_B"]

/-- Modelled from the spec: `createTreeFromText` restricted to the shape of
this example (one Sequence of leaf children) — resolves each referenced
identifier against the registry, instantiates nodes via their builder and
wires them as the Sequence's children; fails with `UnknownIdentifier` if an
identifier is unregistered. Nodes enter the flat collection in construction
order: the Sequence root first, then its children left to right. -/
def createTreeFromDesc (f : Factory) (childIds : List String) :
    Except FactoryError Tree := do
  let leaves ← childIds.mapM (fun id =>
    match f.lookup id with
    | none => Except.error FactoryError.UnknownIdentifier
    | some (_m, bld) => Except.ok (bld id { portMap := [] }))
  Except.ok
    { nodes := TreeNodeInst.seqNode
        { childIdx := (List.range leaves.length).map (· + 1), current := 0 }
        :: leaves,
      rootIdx := 0 }

/-- The factory as configured by `main`: `builder_A` registered under
`"Action_A"` with its hand-built manifest, then
`registerNodeType<Action_B>("Action_B")`. -/
def factoryT09 : Except FactoryError Factory := do
  let f1 ← Factory.registerBuilder [] (buildManifest_A "Action_A")
    (fun name config => TreeNodeInst.actA (builder_A name config))
  registerNodeType_B f1 "Action_B"

/-- `factory.createTreeFromText(xml_text)` as performed by `main`. -/
def treeT09 : Except FactoryError Tree := do
  let f ← factoryT09
  createTreeFromDesc f xmlMainTree

/-- The loop in `main`: iterate through the flat node collection and, on
every node that dynamic-casts to `Action_B`, call `init`. -/
def initAllB (t : Tree) (a1 : Int) (a2 : ℚ) (a3 : String) : Tree :=
  { t with nodes := t.nodes.map (fun n =>
      match n with
      | TreeNodeInst.actB b => TreeNodeInst.actB (b.init a1 a2 a3)
      | other => other) }

/-- The whole `main` flow after registration: build the tree from the
description, run the init loop with `(69, 9.99, "interesting_value")`, and
call `executeTick()` on the root once. -/
def mainRun : Option (NodeStatus × List OutputLine × Tree) :=
  match treeT09 with
  | Except.error _ => none
  | Except.ok t => (initAllB t 69 9.99 "interesting_value").executeTick


/-- The concrete tree value that `factory.createTreeFromText(xml_text)`
yields in `main`: the Sequence root followed by the two leaves in
construction order, `Action_B` still uninitialized. -/
def treeT09built : Tree :=
  { nodes := [TreeNodeInst.seqNode { childIdx := [1, 2], current := 0 },
      TreeNodeInst.actA
        { name := "Action_A", arg1 := 42, arg2 := 3.14,
          arg3 := "hello world" },
      TreeNodeInst.actB { name := "Action_B" }],
    rootIdx := 0 }

/-- The tree state after `main`'s init loop and the single
`executeTick()`: both leaves retain their values and the Sequence's
resume index is back at the first child. -/
def mainFinalTree : Tree :=
  { nodes := [TreeNodeInst.seqNode { childIdx := [1, 2], current := 0 },
      TreeNodeInst.actA
        { name := "Action_A", arg1 := 42, arg2 := 3.14,
          arg3 := "hello world" },
      TreeNodeInst.actB
        { name := "Action_B", arg1 := some 69, arg2 := some 9.99,
          arg3 := "interesting_value" }],
    rootIdx := 0 }

/-- The results of ticking an `Action_B` instance `n` times in a row (the
instance state is unchanged by `tick`). -/
def ActionB.run (b : ActionB) : Nat → List (NodeStatus × OutputLine)
  | 0 => []
  | n + 1 => b.tick :: b.run n

end BT

namespace BT

lemma actionA_run_eq_replicate (a : ActionA) (n : Nat) :
    a.run n = List.replicate n a.tick := by
  induction n with
  | zero => rfl
  | succ n ih => simp [ActionA.run, ih, List.replicate_succ]

lemma actionB_run_eq_replicate (b : ActionB) (n : Nat) :
    b.run n = List.replicate n b.tick := by
  induction n with
  | zero => rfl
  | succ n ih => simp [ActionB.run, ih, List.replicate_succ]

lemma seqTickAux_running (m : Nat) (l : List NodeStatus) (i : Nat)
    (hS : ∀ j, j < m → l[j]? = some NodeStatus.SUCCESS)
    (hR : l[m]? = some NodeStatus.RUNNING) :
    seqTickAux l i = some (NodeStatus.RUNNING, i + m, List.range' i (m + 1)) := by
  induction m generalizing l i with
  | zero =>
    cases l with
    | nil => simp at hR
    | cons s rest =>
      simp only [List.getElem?_cons_zero, Option.some.injEq] at hR
      subst hR
      simp [seqTickAux, List.range']
  | succ m ih =>
    cases l with
    | nil => simp at hR
    | cons s rest =>
      have h0 := hS 0 (Nat.succ_pos m)
      simp only [List.getElem?_cons_zero, Option.some.injEq] at h0
      subst h0
      have ihr := ih rest (i + 1)
        (fun j hj => by simpa using hS (j + 1) (Nat.succ_lt_succ hj))
        (by simpa using hR)
      simp [seqTickAux, ihr, List.range']
      omega

lemma seqTickAux_failure (m : Nat) (l : List NodeStatus) (i : Nat)
    (hS : ∀ j, j < m → l[j]? = some NodeStatus.SUCCESS)
    (hF : l[m]? = some NodeStatus.FAILURE) :
    seqTickAux l i = some (NodeStatus.FAILURE, 0, List.range' i (m + 1)) := by
  induction m generalizing l i with
  | zero =>
    cases l with
    | nil => simp at hF
    | cons s rest =>
      simp only [List.getElem?_cons_zero, Option.some.injEq] at hF
      subst hF
      simp [seqTickAux, List.range']
  | succ m ih =>
    cases l with
    | nil => simp at hF
    | cons s rest =>
      have h0 := hS 0 (Nat.succ_pos m)
      simp only [List.getElem?_cons_zero, Option.some.injEq] at h0
      subst h0
      have ihr := ih rest (i + 1)
        (fun j hj => by simpa using hS (j + 1) (Nat.succ_lt_succ hj))
        (by simpa using hF)
      simp [seqTickAux, ihr, List.range']

lemma seqTickAux_ticked_ge (l : List NodeStatus) (i : Nat) (st : NodeStatus)
    (ni : Nat) (tk : List Nat) (h : seqTickAux l i = some (st, ni, tk)) :
    ∀ j ∈ tk, i ≤ j := by
  induction l generalizing i st ni tk with
  | nil =>
    simp [seqTickAux] at h
    obtain ⟨-, -, h3⟩ := h
    subst h3
    simp
  | cons s rest ih =>
    cases s with
    | IDLE => simp [seqTickAux] at h
    | RUNNING =>
      simp [seqTickAux] at h
      obtain ⟨-, -, h3⟩ := h
      subst h3
      simp
    | FAILURE =>
      simp [seqTickAux] at h
      obtain ⟨-, -, h3⟩ := h
      subst h3
      simp
    | SUCCESS =>
      simp only [seqTickAux] at h
      cases hrec : seqTickAux rest (i + 1) with
      | none => rw [hrec] at h; simp at h
      | some r =>
        obtain ⟨st2, ni2, tk2⟩ := r
        rw [hrec] at h
        simp only [Option.some.injEq, Prod.mk.injEq] at h
        obtain ⟨-, -, h3⟩ := h
        subst h3
        intro j hj
        rcases List.mem_cons.mp hj with hji | hjm
        · omega
        · have := ih (i + 1) st2 ni2 tk2 hrec j hjm
          omega

lemma seqTickAux_head_zero (l : List NodeStatus) (hl : l ≠ [])
    (st : NodeStatus) (ni : Nat) (tk : List Nat)
    (h : seqTickAux l 0 = some (st, ni, tk)) : tk.head? = some 0 := by
  cases l with
  | nil => exact absurd rfl hl
  | cons s rest =>
    cases s with
    | IDLE => simp [seqTickAux] at h
    | RUNNING =>
      simp [seqTickAux] at h
      obtain ⟨-, -, h3⟩ := h
      subst h3
      rfl
    | FAILURE =>
      simp [seqTickAux] at h
      obtain ⟨-, -, h3⟩ := h
      subst h3
      rfl
    | SUCCESS =>
      simp only [seqTickAux] at h
      cases hrec : seqTickAux rest 1 with
      | none => rw [hrec] at h; simp at h
      | some r =>
        obtain ⟨st2, ni2, tk2⟩ := r
        rw [hrec] at h
        simp only [Option.some.injEq, Prod.mk.injEq] at h
        obtain ⟨-, -, h3⟩ := h
        subst h3
        rfl

end BT

namespace BT

/-- C1: the `Action_A` node built via the registered `builder_A`, which
captures the fixed extra arguments `42`, `3.14`, `"hello world"` and
forwards them to the constructor, reports exactly those three values and
returns SUCCESS on every tick, regardless of how many ticks have already
occurred. -/
theorem C1_injected_args_every_tick (name : String)
    (config : NodeConfiguration) (n i : Nat) (h : i < n) :
    ((builder_A name config).run n)[i]? =
      some (NodeStatus.SUCCESS,
        ⟨"Action_B: ", some 42, some (3.14 : ℚ), "hello world"⟩) := by
  rw [actionA_run_eq_replicate, List.getElem?_replicate, if_pos h]
  rfl

theorem C1_injected_args_witness :
    (0 : Nat) < 3 ∧
    ((builder_A "Action_A" { portMap := [] }).run 3)[0]? =
      some (NodeStatus.SUCCESS,
        ⟨"Action_B: ", some 42, some (3.14 : ℚ), "hello world"⟩) :=
  ⟨Nat.zero_lt_succ 2,
    C1_injected_args_every_tick "Action_A" { portMap := [] } 3 0
      (Nat.zero_lt_succ 2)⟩

/-- C4: for a Sequence whose children `C1..Ck-1` report SUCCESS and whose
child `Ck` reports RUNNING, the tick returns RUNNING having ticked exactly
children `0..k` in order and remembers `k` as the resume index; and any
subsequent tick resuming at `k` ticks no child before `Ck`. -/
theorem C4_sequence_resumes_at_running_child
    (cs cs2 : List NodeStatus) (k : Nat)
    (hS : ∀ j, j < k → cs[j]? = some NodeStatus.SUCCESS)
    (hR : cs[k]? = some NodeStatus.RUNNING) :
    seqTickFrom cs 0 = some (NodeStatus.RUNNING, k, List.range (k + 1)) ∧
    (∀ st ni tk, seqTickFrom cs2 k = some (st, ni, tk) → ∀ j ∈ tk, k ≤ j) := by
  constructor
  · have hrun := seqTickAux_running k cs 0 hS hR
    simpa [seqTickFrom, List.range_eq_range'] using hrun
  · intro st ni tk h j hj
    rw [seqTickFrom] at h
    exact seqTickAux_ticked_ge (cs2.drop k) k st ni tk h j hj

theorem C4_sequence_resume_witness :
    ((∀ j, j < 1 →
        ([NodeStatus.SUCCESS, NodeStatus.RUNNING,
          NodeStatus.FAILURE] : List NodeStatus)[j]? =
          some NodeStatus.SUCCESS) ∧
      ([NodeStatus.SUCCESS, NodeStatus.RUNNING,
        NodeStatus.FAILURE] : List NodeStatus)[1]? =
        some NodeStatus.RUNNING) ∧
    (seqTickFrom [NodeStatus.SUCCESS, NodeStatus.RUNNING,
        NodeStatus.FAILURE] 0 =
      some (NodeStatus.RUNNING, 1, List.range 2) ∧
    (∀ st ni tk,
      seqTickFrom [NodeStatus.SUCCESS, NodeStatus.RUNNING] 1 =
        some (st, ni, tk) → ∀ j ∈ tk, 1 ≤ j)) := by
  refine ⟨⟨?_, rfl⟩, ?_⟩
  · intro j hj
    have hj0 : j = 0 := by omega
    subst hj0
    rfl
  · exact C4_sequence_resumes_at_running_child
      [NodeStatus.SUCCESS, NodeStatus.RUNNING, NodeStatus.FAILURE]
      [NodeStatus.SUCCESS, NodeStatus.RUNNING] 1
      (fun j hj => by
        have hj0 : j = 0 := by omega
        subst hj0
        rfl)
      rfl

/-- C5: for a Sequence resuming at child `i` whose children up to `Ck-1`
report SUCCESS and whose child `Ck` reports FAILURE, the tick returns
FAILURE on that same tick and resets the resume index to the first child;
on the next independent activation the walk starts by ticking child `C1`
(index 0). -/
theorem C5_sequence_failure_resets
    (cs cs2 : List NodeStatus) (i k : Nat) (hik : i ≤ k)
    (hS : ∀ j, i ≤ j → j < k → cs[j]? = some NodeStatus.SUCCESS)
    (hF : cs[k]? = some NodeStatus.FAILURE) (hne : cs2 ≠ []) :
    seqTickFrom cs i =
      some (NodeStatus.FAILURE, 0, List.range' i (k - i + 1)) ∧
    (∀ st ni tk, seqTickFrom cs2 0 = some (st, ni, tk) →
      tk.head? = some 0) := by
  constructor
  · rw [seqTickFrom]
    have hfail := seqTickAux_failure (k - i) (cs.drop i) i
      (fun j hj => by
        rw [List.getElem?_drop]
        exact hS (i + j) (Nat.le_add_right i j) (by omega))
      (by rw [List.getElem?_drop, show i + (k - i) = k by omega]; exact hF)
    rw [hfail]
  · intro st ni tk h
    rw [seqTickFrom, List.drop_zero] at h
    exact seqTickAux_head_zero cs2 hne st ni tk h

theorem C5_sequence_failure_witness :
    ((0 : Nat) ≤ 1 ∧
      (∀ j, 0 ≤ j → j < 1 →
        ([NodeStatus.SUCCESS, NodeStatus.FAILURE] : List NodeStatus)[j]? =
          some NodeStatus.SUCCESS) ∧
      ([NodeStatus.SUCCESS, NodeStatus.FAILURE] : List NodeStatus)[1]? =
        some NodeStatus.FAILURE ∧
      ([NodeStatus.SUCCESS, NodeStatus.FAILURE] : List NodeStatus) ≠ []) ∧
    (seqTickFrom [NodeStatus.SUCCESS, NodeStatus.FAILURE] 0 =
      some (NodeStatus.FAILURE, 0, List.range' 0 (1 - 0 + 1)) ∧
    (∀ st ni tk,
      seqTickFrom [NodeStatus.SUCCESS, NodeStatus.FAILURE] 0 =
        some (st, ni, tk) → tk.head? = some 0)) := by
  refine ⟨⟨Nat.zero_le 1, ?_, rfl, by simp⟩, ?_⟩
  · intro j _ hj
    have hj0 : j = 0 := by omega
    subst hj0
    rfl
  · exact C5_sequence_failure_resets
      [NodeStatus.SUCCESS, NodeStatus.FAILURE]
      [NodeStatus.SUCCESS, NodeStatus.FAILURE] 0 1 (Nat.zero_le 1)
      (fun j _ hj => by
        have hj0 : j = 0 := by omega
        subst hj0
        rfl)
      rfl (by simp)

end BT

namespace BT

/-- C2: after the tree of `main` is built, locating the `Action_B`
instance in the flat node collection and initializing it once via
`init(69, 9.99, "interesting_value")` makes every subsequent tick of that
instance report exactly those values, while the `Action_A` instance still
stores `42`, `3.14`, `"hello world"` — no cross-contamination. -/
theorem C2_independent_initialization (t : Tree)
    (h : treeT09 = Except.ok t) :
    ∃ a b,
      (initAllB t 69 9.99 "interesting_value").nodes =
        [TreeNodeInst.seqNode { childIdx := [1, 2], current := 0 },
         TreeNodeInst.actA a, TreeNodeInst.actB b] ∧
      (∀ n i, i < n → (b.run n)[i]? =
        some (NodeStatus.SUCCESS,
          ⟨"Action_B: ", some 69, some (9.99 : ℚ), "interesting_value"⟩)) ∧
      a.arg1 = 42 ∧ a.arg2 = (3.14 : ℚ) ∧ a.arg3 = "hello world" := by
  have h2 : (Except.ok treeT09built : Except FactoryError Tree) =
      Except.ok t := by rw [← h]; rfl
  injection h2 with h3
  subst h3
  refine ⟨{ name := "Action_A", arg1 := 42, arg2 := 3.14,
            arg3 := "hello world" },
          { name := "Action_B", arg1 := some 69, arg2 := some 9.99,
            arg3 := "interesting_value" },
          rfl, ?_, rfl, rfl, rfl⟩
  intro n i hi
  rw [actionB_run_eq_replicate, List.getElem?_replicate, if_pos hi]
  rfl

theorem C2_independent_initialization_witness :
    treeT09 = Except.ok treeT09built ∧
    (∃ a b,
      (initAllB treeT09built 69 9.99 "interesting_value").nodes =
        [TreeNodeInst.seqNode { childIdx := [1, 2], current := 0 },
         TreeNodeInst.actA a, TreeNodeInst.actB b] ∧
      (∀ n i, i < n → (b.run n)[i]? =
        some (NodeStatus.SUCCESS,
          ⟨"Action_B: ", some 69, some (9.99 : ℚ), "interesting_value"⟩)) ∧
      a.arg1 = 42 ∧ a.arg2 = (3.14 : ℚ) ∧ a.arg3 = "hello world") :=
  ⟨rfl, C2_independent_initialization _ rfl⟩

/-- C3: the two-child Sequence tree of the example, where both children
always return SUCCESS, yields SUCCESS from a single `executeTick()` on the
root, and `Action_A`'s output line (the injected `42 / 3.14 / hello world`
values) precedes `Action_B`'s (the initialized
`69 / 9.99 / interesting_value` values) in the ordered log. -/
theorem C3_end_to_end_success_in_order :
    mainRun = some (NodeStatus.SUCCESS,
      [(builder_A "Action_A" { portMap := [] }).tick.2,
       ((ActionB.ctor "Action_B" { portMap := [] }).init 69 9.99
          "interesting_value").tick.2],
      mainFinalTree) ∧
    (builder_A "Action_A" { portMap := [] }).tick.2 =
      ⟨"Action_B: ", some 42, some (3.14 : ℚ), "hello world"⟩ ∧
    ((ActionB.ctor "Action_B" { portMap := [] }).init 69 9.99
        "interesting_value").tick.2 =
      ⟨"Action_B: ", some 69, some (9.99 : ℚ), "interesting_value"⟩ :=
  ⟨rfl, rfl, rfl⟩

/-- C6 counterexample: a freshly constructed, never-initialized
`Action_B` ticks to the perfectly normal status SUCCESS, silently reading
its untouched fields (numeric fields indeterminate, string empty) — no
loud fault is raised, contrary to the claim. -/
theorem C6_tick_before_init_counterexample :
    (ActionB.ctor "Action_B" { portMap := [] }).tick =
      (NodeStatus.SUCCESS, ⟨"Action_B: ", none, none, ""⟩) := rfl

/-- C6 amended: ticking an `Action_B` before (or regardless of) `init` is
not guarded at all — `tick()` always returns SUCCESS and reports whatever
the three fields currently hold; initialization ordering is purely the
caller's responsibility. -/
theorem C6_tick_before_init_unguarded (b : ActionB) :
    b.tick = (NodeStatus.SUCCESS,
      ⟨"Action_B: ", b.arg1, b.arg2, b.arg3⟩) := rfl

/-- C7: registering a second builder under an identifier already present
in the registry fails with DuplicateRegistration, the registry the caller
keeps using is exactly the one from before the failed call, and tree
construction through it behaves exactly as if only the first registration
had occurred. -/
theorem C7_duplicate_registration_rejected (f : Factory)
    (m : TreeNodeManifest) (bld : NodeBuilder)
    (hpresent : (Factory.lookup f m.registrationId).isSome = true) :
    Factory.registerBuilder f m bld =
      Except.error FactoryError.DuplicateRegistration ∧
    Factory.registerBuilderOrKeep f m bld = f ∧
    ∀ ids, createTreeFromDesc (Factory.registerBuilderOrKeep f m bld) ids =
      createTreeFromDesc f ids := by
  have h1 : Factory.registerBuilder f m bld =
      Except.error FactoryError.DuplicateRegistration := by
    unfold Factory.registerBuilder
    rw [if_pos hpresent]
  have h2 : Factory.registerBuilderOrKeep f m bld = f := by
    unfold Factory.registerBuilderOrKeep
    rw [h1]
  exact ⟨h1, h2, fun ids => by rw [h2]⟩

theorem C7_duplicate_registration_witness :
    (Factory.lookup
        [("Action_A", buildManifest_A "Action_A",
          fun name config => TreeNodeInst.actA (builder_A name config))]
        (buildManifest_A "Action_A").registrationId).isSome = true ∧
    (Factory.registerBuilder
        [("Action_A", buildManifest_A "Action_A",
          fun name config => TreeNodeInst.actA (builder_A name config))]
        (buildManifest_A "Action_A")
        (fun name config => TreeNodeInst.actB (ActionB.ctor name config)) =
      Except.error FactoryError.DuplicateRegistration ∧
    Factory.registerBuilderOrKeep
        [("Action_A", buildManifest_A "Action_A",
          fun name config => TreeNodeInst.actA (builder_A name config))]
        (buildManifest_A "Action_A")
        (fun name config => TreeNodeInst.actB (ActionB.ctor name config)) =
      [("Action_A", buildManifest_A "Action_A",
        fun name config => TreeNodeInst.actA (builder_A name config))] ∧
    ∀ ids, createTreeFromDesc
        (Factory.registerBuilderOrKeep
          [("Action_A", buildManifest_A "Action_A",
            fun name config => TreeNodeInst.actA (builder_A name config))]
          (buildManifest_A "Action_A")
          (fun name config => TreeNodeInst.actB (ActionB.ctor name config)))
        ids =
      createTreeFromDesc
        [("Action_A", buildManifest_A "Action_A",
          fun name config => TreeNodeInst.actA (builder_A name config))]
        ids) :=
  ⟨rfl, C7_duplicate_registration_rejected _ _ _ rfl⟩

/-- C8: the publicly observable status of any tick is one of exactly the
four values SUCCESS, FAILURE, RUNNING, IDLE; in particular every tick of
`Action_A` and of `Action_B` yields one of those four (indeed SUCCESS) and
no other sentinel. -/
theorem C8_status_closed_enumeration :
    (∀ s : NodeStatus,
      s ∈ [NodeStatus.SUCCESS, NodeStatus.FAILURE, NodeStatus.RUNNING,
           NodeStatus.IDLE]) ∧
    (∀ a : ActionA,
      a.tick.1 ∈ [NodeStatus.SUCCESS, NodeStatus.FAILURE, NodeStatus.RUNNING,
           NodeStatus.IDLE] ∧ a.tick.1 = NodeStatus.SUCCESS) ∧
    (∀ b : ActionB,
      b.tick.1 ∈ [NodeStatus.SUCCESS, NodeStatus.FAILURE, NodeStatus.RUNNING,
           NodeStatus.IDLE] ∧ b.tick.1 = NodeStatus.SUCCESS) := by
  refine ⟨fun s => ?_, fun a => ⟨by simp [ActionA.tick], rfl⟩,
    fun b => ⟨by simp [ActionB.tick], rfl⟩⟩
  cases s <;> simp

/-- C9: every output line of `Action_A::tick()` begins with the literal
`"Action_B: "` — not `"Action_A: "` — so the lines of the two distinct
node types carry the identical literal and differ only in the printed
values. -/
theorem C9_shared_output_tag (a : ActionA) (b : ActionB) :
    a.tick.2.tag = "Action_B: " ∧ b.tick.2.tag = "Action_B: " :=
  ⟨rfl, rfl⟩

/-- C10: `Action_B::init` may run any number of times; each call
overwrites all three stored fields so ticks report the most recent call's
values (last write wins), a repeated identical call leaves the node state
unchanged (idempotence), and `init` touches nothing outside the three
fields (the node's name is untouched). -/
theorem C10_init_overwrite_idempotent_frame (b : ActionB)
    (x x2 : Int) (y y2 : ℚ) (z z2 : String) :
    (b.init x y z).init x2 y2 z2 = b.init x2 y2 z2 ∧
    ((b.init x y z).init x2 y2 z2).tick =
      (NodeStatus.SUCCESS, ⟨"Action_B: ", some x2, some y2, z2⟩) ∧
    (b.init x y z).init x y z = b.init x y z ∧
    (b.init x y z).name = b.name :=
  ⟨rfl, rfl, rfl, rfl⟩

end BT
